import Mathlib

/-
  Verification of the proteomics power-calculation engine
  (src/src/utils/statistics.ts).

  The engine is a pure numeric library.  We shallowly embed it over ℝ:

  * The jstat normal primitives (`jstat.normal.cdf` / `jstat.normal.inv`)
    are modelled by a `NormalModel` structure which packages a CDF and a
    quantile function together with the mathematical properties of the
    standard normal distribution that the engine relies on (strict
    monotonicity, symmetry cdf(-z) = 1 - cdf(z), the quantile being a
    right inverse on (0,1), and the symmetric-unimodal "window" property:
    the probability of a fixed-width window decreases as the window moves
    away from the origin).  All theorems are uniform in the model; a
    concrete instance (`logisticModel`, the standard logistic CDF, which
    satisfies all of these structural properties) is provided so that
    witness theorems are closed statements.

  * The source's `Infinity` sentinel for standard errors is modelled by
    `Option ℝ` with `none` standing for Infinity.

  * IEEE-754 special-value arithmetic (needed to decide what the code
    really does on the unguarded division by zero in the case-cohort
    standard error) is modelled separately and explicitly by `JSNum`.

  Translated function and parameter names follow the source; a few
  parameter names are shortened (hazardRatio -> hazardR, oddsRatio ->
  oddsR) purely for lexical reasons.
-/

noncomputable section

-- ===========================================================================
-- Type definitions (statistics.ts lines 51-52, 124)
-- ===========================================================================

inductive AnalysisType where
  | cox | linear | logistic | poisson | gee
deriving DecidableEq

inductive StudyDesign where
  | cohort | caseControl | crossSectional | caseCohort | nestedCaseControl
deriving DecidableEq

inductive CorrectionMethod where
  | fdr | bonferroni
deriving DecidableEq

-- ===========================================================================
-- Model of the normal-distribution primitives (statistics.ts lines 109-119)
-- ===========================================================================

/-- Contract of the normal-distribution library used by the engine
(`normalCDF` / `normalQuantile`): a strictly monotone CDF, symmetric
about 0, whose quantile function is a right inverse on (0,1), and for
which central windows of fixed width shrink as they move away from the
origin (this is exactly the symmetric-unimodality fact the two-sided
power formula's monotonicity rests on). -/
structure NormalModel where
  cdf : ℝ → ℝ
  quantile : ℝ → ℝ
  cdf_strictMono : StrictMono cdf
  cdf_symm : ∀ z : ℝ, cdf (-z) = 1 - cdf z
  cdf_quantile : ∀ {p : ℝ}, 0 < p → p < 1 → cdf (quantile p) = p
  window_anti : ∀ {z l1 l2 : ℝ}, 0 ≤ z → 0 ≤ l1 → l1 ≤ l2 →
    cdf (l2 + z) - cdf (l2 - z) ≤ cdf (l1 + z) - cdf (l1 - z)

-- ===========================================================================
-- Small helpers shared by the embedded functions
-- ===========================================================================

/-- The source's in-place sanitization
`if (covariateR2 < 0 || covariateR2 >= 1) covariateR2 = 0`. -/
def sanitizeR2 (r2 : ℝ) : ℝ :=
  if r2 < 0 ∨ 1 ≤ r2 then 0 else r2

/-- JavaScript `x || d` for an optional numeric field: `undefined` and `0`
are falsy and yield the default. -/
def jsOr (o : Option ℝ) (d : ℝ) : ℝ :=
  if o.getD 0 = 0 then d else o.getD 0

/-- JavaScript truthiness of an optional numeric field (used by the
`params.subcohortSize && params.totalCohort` style guards). -/
def truthy (o : Option ℝ) : Prop :=
  o.getD 0 ≠ 0

instance (o : Option ℝ) : Decidable (truthy o) := by
  unfold truthy; infer_instance

/-- `Math.round` (round half up, as for positive arguments in JS). -/
def jsRound (x : ℝ) : ℝ :=
  ((⌊x + 1 / 2⌋ : ℤ) : ℝ)

/-- Division by a possibly-Infinity (`none`) standard error: a finite
nonnegative numerator divided by Infinity is 0 in JS. -/
def infDiv (x : ℝ) : Option ℝ → ℝ
  | none => 0
  | some s => x / s

-- ===========================================================================
-- Multiple-testing alpha adjustment (statistics.ts lines 141-155)
-- ===========================================================================

/-- `calculateEffectiveAlpha`: both methods use threshold / numTests; the
method argument is ignored by the implementation. -/
def calculateEffectiveAlpha (threshold numTests : ℝ) (_method : CorrectionMethod) : ℝ :=
  if numTests ≤ 0 then threshold
  else threshold / numTests

-- ===========================================================================
-- Standard-error calculators (`none` = the Infinity sentinel)
-- ===========================================================================

/-- `calculateCoxSE` (statistics.ts lines 181-185). -/
def calculateCoxSE (events covariateR2 : ℝ) : Option ℝ :=
  if events ≤ 0 then none
  else some (1 / Real.sqrt (events * (1 - sanitizeR2 covariateR2)))

/-- `calculateCoxCaseCohortSE` (statistics.ts lines 196-208).
Real-valued idealization: Lean's total division gives `x / 0 = 0`, so at
`totalCohort = 0` this definition diverges from the JS code (which
produces NaN); the JS special-value behaviour is modelled faithfully by
`jsCoxCaseCohortSE` below. -/
def calculateCoxCaseCohortSE (events subcohortSize totalCohort covariateR2 : ℝ) : Option ℝ :=
  if events ≤ 0 ∨ subcohortSize ≤ 0 then none
  else
    let r2 := sanitizeR2 covariateR2
    let samplingFraction := subcohortSize / totalCohort
    let vif := 1 + (1 - samplingFraction) / samplingFraction
    some (Real.sqrt vif / Real.sqrt (events * (1 - r2)))

/-- `calculateLinearSE` (statistics.ts lines 320-329). -/
def calculateLinearSE (sampleSize residualSD covariateR2 : ℝ) : Option ℝ :=
  if sampleSize ≤ 2 then none
  else some (residualSD / Real.sqrt ((sampleSize - 2) * (1 - sanitizeR2 covariateR2)))

/-- `calculateLogisticSE` (statistics.ts lines 455-463). -/
def calculateLogisticSE (sampleSize prevalence covariateR2 : ℝ) : Option ℝ :=
  if sampleSize ≤ 0 ∨ prevalence ≤ 0 ∨ 1 ≤ prevalence then none
  else some (1 / Real.sqrt (sampleSize * prevalence * (1 - prevalence) * (1 - sanitizeR2 covariateR2)))

/-- `calculateLogisticCaseControlSE` (statistics.ts lines 472-481). -/
def calculateLogisticCaseControlSE (cases controls covariateR2 : ℝ) : Option ℝ :=
  if cases ≤ 0 ∨ controls ≤ 0 then none
  else some (Real.sqrt ((1 / cases + 1 / controls) / (1 - sanitizeR2 covariateR2)))

/-- `calculatePoissonSE` (statistics.ts lines 597-606). -/
def calculatePoissonSE (sampleSize prevalence covariateR2 : ℝ) : Option ℝ :=
  if sampleSize ≤ 0 ∨ prevalence ≤ 0 ∨ 1 ≤ prevalence then none
  else some (Real.sqrt (1 / (sampleSize * prevalence * (1 - sanitizeR2 covariateR2))))

/-- `calculateDesignEffect` (statistics.ts lines 707-713). -/
def calculateDesignEffect (clusterSize icc : ℝ) : ℝ :=
  if clusterSize ≤ 0 ∨ icc < 0 ∨ 1 < icc then 1
  else 1 + (clusterSize - 1) * icc

/-- `calculateGEE_SE` (statistics.ts lines 739-751). -/
def calculateGEE_SE (totalObservations clusterSize icc residualSD covariateR2 : ℝ) : Option ℝ :=
  if totalObservations ≤ 2 ∨ clusterSize ≤ 0 then none
  else
    let de := calculateDesignEffect clusterSize icc
    some (residualSD * Real.sqrt de / Real.sqrt ((totalObservations - 2) * (1 - sanitizeR2 covariateR2)))

-- ===========================================================================
-- Power calculators
-- ===========================================================================

/-- `calculateCoxPower` (statistics.ts lines 220-240). -/
def calculateCoxPower (N : NormalModel) (hazardR events alpha : ℝ)
    (caseCohort : Option (ℝ × ℝ)) (covariateR2 : ℝ) : ℝ :=
  if hazardR ≤ 0 ∨ events ≤ 0 ∨ alpha ≤ 0 ∨ 1 ≤ alpha then 0
  else
    let logHR := Real.log hazardR
    let se := match caseCohort with
      | some (s, t) => calculateCoxCaseCohortSE events s t covariateR2
      | none => calculateCoxSE events covariateR2
    let zAlpha := N.quantile (1 - alpha / 2)
    let lambda := infDiv |logHR| se
    let power := N.cdf (lambda - zAlpha) + N.cdf (-lambda - zAlpha)
    min (max power 0) 1

/-- `calculateLinearPower` (statistics.ts lines 341-358). -/
def calculateLinearPower (N : NormalModel) (beta sampleSize residualSD alpha covariateR2 : ℝ) : ℝ :=
  if sampleSize ≤ 2 ∨ residualSD ≤ 0 ∨ alpha ≤ 0 ∨ 1 ≤ alpha then 0
  else
    let se := calculateLinearSE sampleSize residualSD covariateR2
    let zAlpha := N.quantile (1 - alpha / 2)
    let lambda := infDiv |beta| se
    let power := N.cdf (lambda - zAlpha) + N.cdf (-lambda - zAlpha)
    min (max power 0) 1

/-- `calculateLogisticPower` (statistics.ts lines 493-517); the source
checks `se === Infinity` and returns 0. -/
def calculateLogisticPower (N : NormalModel) (oddsR sampleSize prevalence alpha : ℝ)
    (caseControl : Option (ℝ × ℝ)) (covariateR2 : ℝ) : ℝ :=
  if oddsR ≤ 0 ∨ alpha ≤ 0 ∨ 1 ≤ alpha then 0
  else
    let logOR := Real.log oddsR
    let se := match caseControl with
      | some (c, k) => calculateLogisticCaseControlSE c k covariateR2
      | none => calculateLogisticSE sampleSize prevalence covariateR2
    match se with
    | none => 0
    | some s =>
      let zAlpha := N.quantile (1 - alpha / 2)
      let lambda := |logOR| / s
      let power := N.cdf (lambda - zAlpha) + N.cdf (-lambda - zAlpha)
      min (max power 0) 1

/-- `calculatePoissonPower` (statistics.ts lines 617-636). -/
def calculatePoissonPower (N : NormalModel) (relativeRisk sampleSize prevalence alpha covariateR2 : ℝ) : ℝ :=
  if relativeRisk ≤ 0 ∨ sampleSize ≤ 0 ∨ prevalence ≤ 0 ∨ 1 ≤ prevalence ∨ alpha ≤ 0 ∨ 1 ≤ alpha then 0
  else
    let logRR := Real.log relativeRisk
    let se := calculatePoissonSE sampleSize prevalence covariateR2
    let zAlpha := N.quantile (1 - alpha / 2)
    let lambda := infDiv |logRR| se
    let power := N.cdf (lambda - zAlpha) + N.cdf (-lambda - zAlpha)
    min (max power 0) 1

/-- `calculateGEE_Power` (statistics.ts lines 765-787); the source checks
`se === Infinity` and returns 0. -/
def calculateGEE_Power (N : NormalModel)
    (beta totalObservations clusterSize icc residualSD alpha covariateR2 : ℝ) : ℝ :=
  if totalObservations ≤ 2 ∨ clusterSize ≤ 0 ∨ residualSD ≤ 0 ∨
      alpha ≤ 0 ∨ 1 ≤ alpha ∨ icc < 0 ∨ 1 < icc then 0
  else
    match calculateGEE_SE totalObservations clusterSize icc residualSD covariateR2 with
    | none => 0
    | some s =>
      let zAlpha := N.quantile (1 - alpha / 2)
      let lambda := |beta| / s
      let power := N.cdf (lambda - zAlpha) + N.cdf (-lambda - zAlpha)
      min (max power 0) 1

/-- `calculateCoxRequiredEvents` (statistics.ts lines 282-300);
`none` models the Infinity sentinel, `Math.ceil` is `Int.ceil`. -/
def calculateCoxRequiredEvents (N : NormalModel) (hazardR targetPower alpha covariateR2 : ℝ) : Option ℝ :=
  if hazardR ≤ 1 ∨ targetPower ≤ 0 ∨ 1 ≤ targetPower ∨ alpha ≤ 0 ∨ 1 ≤ alpha then none
  else
    let r2 := sanitizeR2 covariateR2
    let logHR := Real.log hazardR
    let zAlpha := N.quantile (1 - alpha / 2)
    let zBeta := N.quantile targetPower
    let sqrtD := (zAlpha + zBeta) / |logHR|
    some ((⌈(sqrtD * sqrtD) / (1 - r2)⌉ : ℤ) : ℝ)

-- ===========================================================================
-- Unified dispatch (statistics.ts lines 892-982)
-- ===========================================================================

/-- `PowerParams` (statistics.ts lines 892-916); optional fields are
`Option` (with `none` standing for an absent / `undefined` field). -/
structure PowerParams where
  analysisType : AnalysisType
  studyDesign : StudyDesign
  effectSize : ℝ
  alpha : ℝ
  events : Option ℝ
  sampleSize : Option ℝ
  residualSD : Option ℝ
  prevalence : Option ℝ
  cases : Option ℝ
  controls : Option ℝ
  subcohortSize : Option ℝ
  totalCohort : Option ℝ
  clusterSize : Option ℝ
  icc : Option ℝ
  covariateR2 : Option ℝ

/-- `calculatePower` (statistics.ts lines 921-982): routing plus the
source's `|| default` fill-ins. -/
def calculatePower (N : NormalModel) (params : PowerParams) : ℝ :=
  let covariateR2 := params.covariateR2.getD 0
  match params.analysisType with
  | .cox =>
    if params.studyDesign = .caseCohort ∧ truthy params.subcohortSize ∧ truthy params.totalCohort then
      calculateCoxPower N params.effectSize (jsOr params.events 0) params.alpha
        (some (params.subcohortSize.getD 0, params.totalCohort.getD 0)) covariateR2
    else
      calculateCoxPower N params.effectSize (jsOr params.events 0) params.alpha none covariateR2
  | .linear =>
    calculateLinearPower N params.effectSize (jsOr params.sampleSize 0)
      (jsOr params.residualSD 1) params.alpha covariateR2
  | .logistic =>
    if params.studyDesign = .caseControl ∧ truthy params.cases ∧ truthy params.controls then
      calculateLogisticPower N params.effectSize 0 0 params.alpha
        (some (params.cases.getD 0, params.controls.getD 0)) covariateR2
    else
      calculateLogisticPower N params.effectSize (jsOr params.sampleSize 0)
        (jsOr params.prevalence (1 / 10)) params.alpha none covariateR2
  | .poisson =>
    calculatePoissonPower N params.effectSize (jsOr params.sampleSize 0)
      (jsOr params.prevalence (1 / 10)) params.alpha covariateR2
  | .gee =>
    calculateGEE_Power N params.effectSize (jsOr params.sampleSize 0)
      (jsOr params.clusterSize 1) (jsOr params.icc 0) (jsOr params.residualSD 1)
      params.alpha covariateR2

-- ===========================================================================
-- Two-stage design (statistics.ts lines 1115-1268)
-- ===========================================================================

/-- `TwoStageParams` (statistics.ts lines 1115-1130); `expectedHits` and
`sampleOverlap` are optional with destructuring defaults 10 and 0. -/
structure TwoStageParams where
  stage1Proteins : ℝ
  stage1SampleSize : ℝ
  stage2SampleSize : ℝ
  stage1FDR : ℝ
  stage2Alpha : ℝ
  expectedHits : Option ℝ
  sampleOverlap : Option ℝ

/-- `TwoStageResult` (statistics.ts lines 1132-1149). -/
structure TwoStageResult where
  stage1Power : ℝ
  stage1Alpha : ℝ
  stage2Power : ℝ
  jointPower : ℝ
  expectedAdvancing : ℝ
  stage2PerProteinAlpha : ℝ
  costEfficiency : ℝ
  totalSampleSize : ℝ

/-- The `Partial<PowerParams>` study bundle consumed by
`calculateTwoStagePower` (only the fields it reads). -/
structure StudySubset where
  studyDesign : Option StudyDesign
  events : Option ℝ
  residualSD : Option ℝ
  prevalence : Option ℝ
  cases : Option ℝ
  controls : Option ℝ
  clusterSize : Option ℝ
  icc : Option ℝ

/-- `calculateStage1Alpha` (statistics.ts lines 1154-1159); the source
calls `calculateEffectiveAlpha` with the default method. -/
def calculateStage1Alpha (stage1FDR stage1Proteins : ℝ) : ℝ :=
  calculateEffectiveAlpha stage1FDR stage1Proteins .fdr

/-- `calculateTwoStagePower` (statistics.ts lines 1169-1268). -/
def calculateTwoStagePower (N : NormalModel) (effectSize : ℝ) (analysisType : AnalysisType)
    (params : TwoStageParams) (studyParams : StudySubset) : TwoStageResult :=
  let expectedHits := params.expectedHits.getD 10
  let sampleOverlap := params.sampleOverlap.getD 0
  let stage1Alpha := calculateStage1Alpha params.stage1FDR params.stage1Proteins
  let stage1PowerParams : PowerParams := {
    analysisType := analysisType
    studyDesign := studyParams.studyDesign.getD .cohort
    effectSize := effectSize
    alpha := stage1Alpha
    events := studyParams.events
    sampleSize := some params.stage1SampleSize
    residualSD := some (jsOr studyParams.residualSD 1)
    prevalence := studyParams.prevalence
    cases := studyParams.cases
    controls := studyParams.controls
    subcohortSize := none
    totalCohort := none
    clusterSize := studyParams.clusterSize
    icc := studyParams.icc
    covariateR2 := none }
  let stage1Power := calculatePower N stage1PowerParams
  let expectedTruePositives := expectedHits * stage1Power
  let nullProteins := params.stage1Proteins - expectedHits
  let expectedFalsePositives := nullProteins * stage1Alpha
  let expectedAdvancing := expectedTruePositives + expectedFalsePositives
  let effectiveStage2Size :=
    if 0 < sampleOverlap then params.stage2SampleSize * (1 - sampleOverlap * (1 / 2))
    else params.stage2SampleSize
  let stage2PerProteinAlpha :=
    if 1 < expectedAdvancing then params.stage2Alpha / max 1 ((⌈expectedAdvancing⌉ : ℤ) : ℝ)
    else params.stage2Alpha
  let stage2PowerParams : PowerParams :=
    { stage1PowerParams with alpha := stage2PerProteinAlpha, sampleSize := some effectiveStage2Size }
  let stage2Power := calculatePower N stage2PowerParams
  let jointPower := stage1Power * stage2Power
  let totalSampleSize :=
    if 0 < sampleOverlap then params.stage1SampleSize + params.stage2SampleSize * (1 - sampleOverlap)
    else params.stage1SampleSize + params.stage2SampleSize
  let singleStageAlpha := calculateEffectiveAlpha (1 / 20) params.stage1Proteins .fdr
  let singleStagePowerParams : PowerParams :=
    { stage1PowerParams with alpha := singleStageAlpha, sampleSize := some totalSampleSize }
  let singleStagePower := calculatePower N singleStagePowerParams
  let costEfficiency := if 0 < singleStagePower then jointPower / singleStagePower else 1
  { stage1Power := stage1Power
    stage1Alpha := stage1Alpha
    stage2Power := stage2Power
    jointPower := jointPower
    expectedAdvancing := jsRound (expectedAdvancing * 10) / 10
    stage2PerProteinAlpha := stage2PerProteinAlpha
    costEfficiency := jsRound (costEfficiency * 100) / 100
    totalSampleSize := ((⌈totalSampleSize⌉ : ℤ) : ℝ) }

/-- The single-stage comparison power computed internally by
`calculateTwoStagePower` (statistics.ts lines 1243-1252): the power of a
single-stage study at the total sample size (overlap-adjusted) and the
proteome-wide alpha `calculateEffectiveAlpha(0.05, stage1Proteins)`.
Factored out verbatim so that theorems can refer to it by name. -/
def singleStageComparisonPower (N : NormalModel) (effectSize : ℝ) (analysisType : AnalysisType)
    (params : TwoStageParams) (studyParams : StudySubset) : ℝ :=
  calculatePower N {
    analysisType := analysisType
    studyDesign := studyParams.studyDesign.getD .cohort
    effectSize := effectSize
    alpha := calculateEffectiveAlpha (1 / 20) params.stage1Proteins .fdr
    events := studyParams.events
    sampleSize := some (if 0 < params.sampleOverlap.getD 0
        then params.stage1SampleSize + params.stage2SampleSize * (1 - params.sampleOverlap.getD 0)
        else params.stage1SampleSize + params.stage2SampleSize)
    residualSD := some (jsOr studyParams.residualSD 1)
    prevalence := studyParams.prevalence
    cases := studyParams.cases
    controls := studyParams.controls
    subcohortSize := none
    totalCohort := none
    clusterSize := studyParams.clusterSize
    icc := studyParams.icc
    covariateR2 := none }

-- ===========================================================================
-- JavaScript / IEEE-754 special-value semantics
-- ===========================================================================

/-- JavaScript double values, idealized: finite values are exact reals
(rounding is not modelled), but the special values Infinity, -Infinity
and NaN and their propagation rules are modelled faithfully.  Signed
zeros are not distinguished: every zero is +0, which matches all the
division-by-zero inputs examined here. -/
inductive JSNum where
  | nan : JSNum
  | posInf : JSNum
  | negInf : JSNum
  | fin : ℝ → JSNum

namespace JSNum

/-- IEEE addition. -/
def add : JSNum → JSNum → JSNum
  | nan, _ => nan
  | _, nan => nan
  | posInf, negInf => nan
  | negInf, posInf => nan
  | posInf, _ => posInf
  | _, posInf => posInf
  | negInf, _ => negInf
  | _, negInf => negInf
  | fin a, fin b => fin (a + b)

/-- IEEE negation. -/
def neg : JSNum → JSNum
  | nan => nan
  | posInf => negInf
  | negInf => posInf
  | fin a => fin (-a)

/-- IEEE subtraction (`a - b = a + (-b)` exactly, specials included). -/
def sub (a b : JSNum) : JSNum := add a (neg b)

/-- IEEE division (zeros treated as +0). -/
def div : JSNum → JSNum → JSNum
  | nan, _ => nan
  | _, nan => nan
  | posInf, posInf => nan
  | posInf, negInf => nan
  | negInf, posInf => nan
  | negInf, negInf => nan
  | posInf, fin b => if b < 0 then negInf else posInf
  | negInf, fin b => if b < 0 then posInf else negInf
  | fin _, posInf => fin 0
  | fin _, negInf => fin 0
  | fin a, fin b =>
    if b = 0 then (if a = 0 then nan else if 0 < a then posInf else negInf)
    else fin (a / b)

/-- `Math.sqrt`: NaN on negative arguments and NaN. -/
def sqrt : JSNum → JSNum
  | nan => nan
  | posInf => posInf
  | negInf => nan
  | fin a => if a < 0 then nan else fin (Real.sqrt a)

/-- `Math.max` on two arguments: NaN if either argument is NaN. -/
def max2 : JSNum → JSNum → JSNum
  | nan, _ => nan
  | _, nan => nan
  | posInf, _ => posInf
  | _, posInf => posInf
  | negInf, b => b
  | a, negInf => a
  | fin a, fin b => fin (max a b)

/-- `Math.min` on two arguments: NaN if either argument is NaN. -/
def min2 : JSNum → JSNum → JSNum
  | nan, _ => nan
  | _, nan => nan
  | negInf, _ => negInf
  | _, negInf => negInf
  | posInf, b => b
  | a, posInf => a
  | fin a, fin b => fin (min a b)

end JSNum

/-- `jstat.normal.cdf` lifted to JS values: NaN propagates (jstat's erf
series is NaN at NaN); the infinite arguments are given their limit
values (they are not reached on the inputs examined here). -/
def jsCDF (N : NormalModel) : JSNum → JSNum
  | .nan => .nan
  | .posInf => .fin 1
  | .negInf => .fin 0
  | .fin x => .fin (N.cdf x)

/-- `calculateCoxSE` with JS arithmetic: on the non-sentinel branch all
quantities are finite reals. -/
def jsCoxSE (events covariateR2 : ℝ) : JSNum :=
  if events ≤ 0 then .posInf
  else .fin (1 / Real.sqrt (events * (1 - sanitizeR2 covariateR2)))

/-- `calculateCoxCaseCohortSE` (statistics.ts lines 196-208) with JS
arithmetic: `totalCohort` is NOT guarded, so `subcohortSize / totalCohort`
can be Infinity (totalCohort = 0) and the variance inflation factor
`1 + (1 - f) / f` then evaluates to NaN. -/
def jsCoxCaseCohortSE (events subcohortSize totalCohort covariateR2 : ℝ) : JSNum :=
  if events ≤ 0 ∨ subcohortSize ≤ 0 then .posInf
  else
    let r2 := sanitizeR2 covariateR2
    let samplingFraction := JSNum.div (.fin subcohortSize) (.fin totalCohort)
    let vif := JSNum.add (.fin 1) (JSNum.div (JSNum.sub (.fin 1) samplingFraction) samplingFraction)
    JSNum.div (JSNum.sqrt vif) (.fin (Real.sqrt (events * (1 - r2))))

/-- `calculateCoxPower` (statistics.ts lines 220-240) with JS arithmetic
from the standard-error on: the guard does not cover the case-cohort
fields, so special values produced by the SE propagate to the result. -/
def jsCoxPower (N : NormalModel) (hazardR events alpha : ℝ)
    (caseCohort : Option (ℝ × ℝ)) (covariateR2 : ℝ) : JSNum :=
  if hazardR ≤ 0 ∨ events ≤ 0 ∨ alpha ≤ 0 ∨ 1 ≤ alpha then .fin 0
  else
    let logHR := Real.log hazardR
    let se := match caseCohort with
      | some (s, t) => jsCoxCaseCohortSE events s t covariateR2
      | none => jsCoxSE events covariateR2
    let zAlpha := N.quantile (1 - alpha / 2)
    let lambda := JSNum.div (.fin |logHR|) se
    let power := JSNum.add (jsCDF N (JSNum.sub lambda (.fin zAlpha)))
      (jsCDF N (JSNum.sub (JSNum.neg lambda) (.fin zAlpha)))
    JSNum.min2 (JSNum.max2 power (.fin 0)) (.fin 1)

-- ===========================================================================
-- A concrete NormalModel instance
-- ===========================================================================

/-- A concrete `NormalModel` used to close witness statements: the
standard logistic distribution.  Its CDF satisfies every structural
property of the standard normal CDF that the theorems below assume
(strict monotonicity, symmetry, exact quantile inverse, and the
shrinking-window property of symmetric unimodal distributions), and its
quantile function has the closed form log(p/(1-p)).  All claim theorems
are uniform in the `NormalModel`, so they hold in particular for the
exact normal CDF; this instance only serves to instantiate them. -/
def logisticModel : NormalModel where
  cdf := fun x => 1 / (1 + Real.exp (-x))
  quantile := fun p => Real.log (p / (1 - p))
  cdf_strictMono := by
    intro a b hab
    have h1 : Real.exp (-b) < Real.exp (-a) := Real.exp_lt_exp.mpr (by linarith)
    have hb : (0:ℝ) < 1 + Real.exp (-b) := by positivity
    exact one_div_lt_one_div_of_lt hb (by linarith)
  cdf_symm := by
    intro z
    have h1 : (0:ℝ) < 1 + Real.exp (-z) := by positivity
    have h2 : (0:ℝ) < 1 + Real.exp z := by positivity
    have h3 : Real.exp z * Real.exp (-z) = 1 := by
      rw [← Real.exp_add]; simp
    show 1 / (1 + Real.exp (-(-z))) = 1 - 1 / (1 + Real.exp (-z))
    rw [neg_neg]
    field_simp
    nlinarith [h3]
  cdf_quantile := by
    intro p hp0 hp1
    have hr : (0:ℝ) < p / (1 - p) := by
      apply div_pos hp0; linarith
    show 1 / (1 + Real.exp (-(Real.log (p / (1 - p))))) = p
    have h : Real.exp (-(Real.log (p / (1 - p)))) = (1 - p) / p := by
      rw [Real.exp_neg, Real.exp_log hr]
      rw [inv_div]
    rw [h]
    field_simp
  window_anti := by
    intro z l1 l2 hz h0 h12
    show 1 / (1 + Real.exp (-(l2 + z))) - 1 / (1 + Real.exp (-(l2 - z)))
      ≤ 1 / (1 + Real.exp (-(l1 + z))) - 1 / (1 + Real.exp (-(l1 - z)))
    have core : ∀ u1 u2 v : ℝ, 0 < u2 → u2 ≤ u1 → u1 ≤ 1 → 0 < v → v ≤ 1 →
        1 / (1 + u2 * v) - v / (v + u2) ≤ 1 / (1 + u1 * v) - v / (v + u1) := by
      intro u1 u2 v hu2 h21 h11 hv hv1
      have hu1 : 0 < u1 := lt_of_lt_of_le hu2 h21
      have form1 : 1 / (1 + u1 * v) - v / (v + u1) = u1 * (1 - v^2) / ((1 + u1 * v) * (v + u1)) := by
        field_simp
        ring
      have form2 : 1 / (1 + u2 * v) - v / (v + u2) = u2 * (1 - v^2) / ((1 + u2 * v) * (v + u2)) := by
        field_simp
        ring
      rw [form1, form2]
      rw [div_le_div_iff₀ (by positivity) (by positivity)]
      have hkey : 0 ≤ (1 - v^2) * (v * ((u1 - u2) * (1 - u1 * u2))) := by
        have h1 : (0:ℝ) ≤ 1 - v^2 := by nlinarith
        have h2 : (0:ℝ) ≤ u1 - u2 := by linarith
        have h3 : (0:ℝ) ≤ 1 - u1 * u2 := by nlinarith
        positivity
      nlinarith [hkey]
    have hv : 0 < Real.exp (-z) := Real.exp_pos _
    have hv1 : Real.exp (-z) ≤ 1 := by
      rw [show (1:ℝ) = Real.exp 0 by rw [Real.exp_zero]]
      exact Real.exp_le_exp.mpr (by linarith)
    have hu2 : 0 < Real.exp (-l2) := Real.exp_pos _
    have h21 : Real.exp (-l2) ≤ Real.exp (-l1) := Real.exp_le_exp.mpr (by linarith)
    have h11 : Real.exp (-l1) ≤ 1 := by
      rw [show (1:ℝ) = Real.exp 0 by rw [Real.exp_zero]]
      exact Real.exp_le_exp.mpr (by linarith)
    have ea : ∀ l : ℝ, Real.exp (-(l + z)) = Real.exp (-l) * Real.exp (-z) := by
      intro l
      rw [← Real.exp_add]
      ring_nf
    have eb : ∀ l : ℝ, 1 / (1 + Real.exp (-(l - z))) = Real.exp (-z) / (Real.exp (-z) + Real.exp (-l)) := by
      intro l
      have h : Real.exp (-(l - z)) = Real.exp (-l) / Real.exp (-z) := by
        rw [← Real.exp_sub]
        ring_nf
      have hl : 0 < Real.exp (-l) := Real.exp_pos _
      rw [h]
      rw [div_eq_div_iff (by positivity) (by positivity)]
      field_simp
    rw [ea l1, ea l2, eb l1, eb l2]
    exact core _ _ _ hu2 h21 h11 hv hv1

-- ===========================================================================
-- Helper lemmas
-- ===========================================================================

lemma NormalModel.cdf_zero (N : NormalModel) : N.cdf 0 = 1 / 2 := by
  have h := N.cdf_symm 0
  rw [neg_zero] at h
  linarith

lemma NormalModel.quantile_nonneg (N : NormalModel) {p : ℝ}
    (hhalf : 1 / 2 ≤ p) (hp0 : 0 < p) (hp1 : p < 1) : 0 ≤ N.quantile p := by
  have hq : N.cdf (N.quantile p) = p := N.cdf_quantile hp0 hp1
  have h : N.cdf 0 ≤ N.cdf (N.quantile p) := by
    rw [hq, N.cdf_zero]
    exact hhalf
  exact (N.cdf_strictMono.le_iff_le).mp h

lemma sanitizeR2_nonneg (r2 : ℝ) : 0 ≤ sanitizeR2 r2 := by
  unfold sanitizeR2
  split
  · norm_num
  · rename_i h
    push_neg at h
    linarith [h.1]

lemma sanitizeR2_lt_one (r2 : ℝ) : sanitizeR2 r2 < 1 := by
  unfold sanitizeR2
  split
  · norm_num
  · rename_i h
    push_neg at h
    linarith [h.2]

lemma one_sub_sanitizeR2_pos (r2 : ℝ) : 0 < 1 - sanitizeR2 r2 := by
  linarith [sanitizeR2_lt_one r2]

lemma calculateDesignEffect_pos (clusterSize icc : ℝ) : 0 < calculateDesignEffect clusterSize icc := by
  unfold calculateDesignEffect
  split
  · norm_num
  · rename_i h
    push_neg at h
    obtain ⟨h1, h2, h3⟩ := h
    obtain h4 | h4 := eq_or_lt_of_le h3
    · rw [h4]
      ring_nf
      linarith
    · nlinarith [mul_nonneg h1.le h2]

lemma clamp_nonneg (x : ℝ) : 0 ≤ min (max x 0) 1 :=
  le_min (le_max_right x 0) zero_le_one

/-- Two-sided Wald power at the null rejects at exactly the nominal rate:
Φ(0 - z) + Φ(-0 - z) = α when z = Φ⁻¹(1 - α/2), and the clamp is the
identity there. -/
lemma wald_null (N : NormalModel) {alpha : ℝ} (h0 : 0 < alpha) (h1 : alpha < 1) :
    min (max (N.cdf (0 - N.quantile (1 - alpha / 2)) + N.cdf (-0 - N.quantile (1 - alpha / 2))) 0) 1
      = alpha := by
  have hp0 : 0 < 1 - alpha / 2 := by linarith
  have hp1 : 1 - alpha / 2 < 1 := by linarith
  have hsym : N.cdf (-(N.quantile (1 - alpha / 2))) = 1 - N.cdf (N.quantile (1 - alpha / 2)) :=
    N.cdf_symm _
  have hq : N.cdf (N.quantile (1 - alpha / 2)) = 1 - alpha / 2 := N.cdf_quantile hp0 hp1
  have hsum : N.cdf (0 - N.quantile (1 - alpha / 2)) + N.cdf (-0 - N.quantile (1 - alpha / 2))
      = alpha := by
    rw [zero_sub, neg_zero, zero_sub, hsym, hq]
    ring
  rw [hsum, max_eq_left h0.le, min_eq_left h1.le]

/-- Monotonicity of the clamped two-sided Wald power in the noncentrality
parameter, for nonnegative critical value. -/
lemma wald_mono (N : NormalModel) {z l1 l2 : ℝ} (hz : 0 ≤ z) (h0 : 0 ≤ l1) (h12 : l1 ≤ l2) :
    min (max (N.cdf (l1 - z) + N.cdf (-l1 - z)) 0) 1
      ≤ min (max (N.cdf (l2 - z) + N.cdf (-l2 - z)) 0) 1 := by
  have key : N.cdf (l1 - z) + N.cdf (-l1 - z) ≤ N.cdf (l2 - z) + N.cdf (-l2 - z) := by
    have h1 := N.cdf_symm (l1 + z)
    have h2 := N.cdf_symm (l2 + z)
    have hw := N.window_anti hz h0 h12
    have e1 : -l1 - z = -(l1 + z) := by ring
    have e2 : -l2 - z = -(l2 + z) := by ring
    rw [e1, e2, h1, h2]
    linarith
  exact min_le_min (max_le_max key le_rfl) le_rfl

/-- Division shape of `wald_mono`: a smaller positive standard error gives
at least as much power. -/
lemma wald_mono_se (N : NormalModel) {z a s1 s2 : ℝ} (hz : 0 ≤ z) (ha : 0 ≤ a)
    (hs2 : 0 < s2) (hss : s2 ≤ s1) :
    min (max (N.cdf (a / s1 - z) + N.cdf (-(a / s1) - z)) 0) 1
      ≤ min (max (N.cdf (a / s2 - z) + N.cdf (-(a / s2) - z)) 0) 1 := by
  have hs1 : 0 < s1 := lt_of_lt_of_le hs2 hss
  have hl1 : 0 ≤ a / s1 := div_nonneg ha hs1.le
  have h12 : a / s1 ≤ a / s2 := div_le_div_of_nonneg_left ha hs2 hss
  have h := wald_mono N hz hl1 h12
  simpa [sub_eq_add_neg, neg_add] using h

-- ===========================================================================
-- C2: effective alpha
-- ===========================================================================

/-- C2 (multiple-testing alpha adjustment): for positive numTests the
result is exactly threshold / numTests; for numTests ≤ 0 the threshold is
returned unchanged; and the result never depends on the method argument. -/
theorem effectiveAlpha_spec (threshold numTests : ℝ) (method : CorrectionMethod) :
    (0 < numTests → calculateEffectiveAlpha threshold numTests method = threshold / numTests) ∧
    (numTests ≤ 0 → calculateEffectiveAlpha threshold numTests method = threshold) ∧
    (∀ method' : CorrectionMethod,
      calculateEffectiveAlpha threshold numTests method
        = calculateEffectiveAlpha threshold numTests method') := by
  unfold calculateEffectiveAlpha
  refine ⟨fun h => if_neg (not_le.mpr h), fun h => if_pos h, fun m => rfl⟩

/-- Witness for C2 at threshold 0.05, numTests 100, method fdr. -/
theorem effectiveAlpha_spec_witness :
    calculateEffectiveAlpha (1 / 20) 100 CorrectionMethod.fdr = (1 / 20) / 100 :=
  (effectiveAlpha_spec (1 / 20) 100 CorrectionMethod.fdr).1 (by norm_num)

-- ===========================================================================
-- C1: null-power identity
-- ===========================================================================

/-- C1 (null-power identity): for every model's power function, every
valid sample-parameter bundle and every alpha in (0,1), evaluating power
at the null effect (1 for the HR/OR/RR models, 0 for the beta-type
models) yields exactly alpha, because the two-sided formula keeps both
CDF terms: Φ(-z) + Φ(-z) = α for z = Φ⁻¹(1 - α/2). -/
theorem null_power_identity (N : NormalModel)
    (events subcohortSize totalCohort n residualSD prevalence cases controls nG clusterSize icc alpha r2 : ℝ)
    (hev : 0 < events) (hs : 0 < subcohortSize) (_ht : 0 < totalCohort)
    (hn : 2 < n) (hsd : 0 < residualSD) (hp0 : 0 < prevalence) (hp1 : prevalence < 1)
    (hc : 0 < cases) (hk : 0 < controls)
    (hnG : 2 < nG) (hm : 0 < clusterSize) (hicc0 : 0 ≤ icc) (hicc1 : icc ≤ 1)
    (ha0 : 0 < alpha) (ha1 : alpha < 1) :
    calculateCoxPower N 1 events alpha none r2 = alpha ∧
    calculateCoxPower N 1 events alpha (some (subcohortSize, totalCohort)) r2 = alpha ∧
    calculateLinearPower N 0 n residualSD alpha r2 = alpha ∧
    calculateLogisticPower N 1 n prevalence alpha none r2 = alpha ∧
    calculateLogisticPower N 1 n prevalence alpha (some (cases, controls)) r2 = alpha ∧
    calculatePoissonPower N 1 n prevalence alpha r2 = alpha ∧
    calculateGEE_Power N 0 nG clusterSize icc residualSD alpha r2 = alpha := by
  have hn0 : (0:ℝ) < n := by linarith
  refine ⟨?_, ?_, ?_, ?_, ?_, ?_, ?_⟩
  · unfold calculateCoxPower
    rw [if_neg (by push_neg; exact ⟨one_pos, hev, ha0, ha1⟩)]
    have hse : calculateCoxSE events r2
        = some (1 / Real.sqrt (events * (1 - sanitizeR2 r2))) := by
      unfold calculateCoxSE
      exact if_neg (not_le.mpr hev)
    simp only [Real.log_one, abs_zero, hse, infDiv, zero_div]
    exact wald_null N ha0 ha1
  · unfold calculateCoxPower
    rw [if_neg (by push_neg; exact ⟨one_pos, hev, ha0, ha1⟩)]
    have hse : calculateCoxCaseCohortSE events subcohortSize totalCohort r2
        = some (Real.sqrt (1 + (1 - subcohortSize / totalCohort) / (subcohortSize / totalCohort))
            / Real.sqrt (events * (1 - sanitizeR2 r2))) := by
      unfold calculateCoxCaseCohortSE
      rw [if_neg (by push_neg; exact ⟨not_le.mp (not_le.mpr hev), hs⟩)]
    simp only [Real.log_one, abs_zero, hse, infDiv, zero_div]
    exact wald_null N ha0 ha1
  · unfold calculateLinearPower
    rw [if_neg (by push_neg; exact ⟨hn, hsd, ha0, ha1⟩)]
    have hse : calculateLinearSE n residualSD r2
        = some (residualSD / Real.sqrt ((n - 2) * (1 - sanitizeR2 r2))) := by
      unfold calculateLinearSE
      exact if_neg (not_le.mpr hn)
    simp only [abs_zero, hse, infDiv, zero_div]
    exact wald_null N ha0 ha1
  · unfold calculateLogisticPower
    rw [if_neg (by push_neg; exact ⟨one_pos, ha0, ha1⟩)]
    have hse : calculateLogisticSE n prevalence r2
        = some (1 / Real.sqrt (n * prevalence * (1 - prevalence) * (1 - sanitizeR2 r2))) := by
      unfold calculateLogisticSE
      exact if_neg (by push_neg; exact ⟨hn0, hp0, hp1⟩)
    simp only [Real.log_one, abs_zero, hse, zero_div]
    exact wald_null N ha0 ha1
  · unfold calculateLogisticPower
    rw [if_neg (by push_neg; exact ⟨one_pos, ha0, ha1⟩)]
    have hse : calculateLogisticCaseControlSE cases controls r2
        = some (Real.sqrt ((1 / cases + 1 / controls) / (1 - sanitizeR2 r2))) := by
      unfold calculateLogisticCaseControlSE
      exact if_neg (by push_neg; exact ⟨hc, hk⟩)
    simp only [Real.log_one, abs_zero, hse, zero_div]
    exact wald_null N ha0 ha1
  · unfold calculatePoissonPower
    rw [if_neg (by push_neg; exact ⟨one_pos, hn0, hp0, hp1, ha0, ha1⟩)]
    have hse : calculatePoissonSE n prevalence r2
        = some (Real.sqrt (1 / (n * prevalence * (1 - sanitizeR2 r2)))) := by
      unfold calculatePoissonSE
      exact if_neg (by push_neg; exact ⟨hn0, hp0, hp1⟩)
    simp only [Real.log_one, abs_zero, hse, infDiv, zero_div]
    exact wald_null N ha0 ha1
  · unfold calculateGEE_Power
    rw [if_neg (by push_neg; exact ⟨hnG, hm, hsd, ha0, ha1, hicc0, hicc1⟩)]
    have hse : calculateGEE_SE nG clusterSize icc residualSD r2
        = some (residualSD * Real.sqrt (calculateDesignEffect clusterSize icc)
            / Real.sqrt ((nG - 2) * (1 - sanitizeR2 r2))) := by
      unfold calculateGEE_SE
      rw [if_neg (by push_neg; exact ⟨not_le.mp (not_le.mpr hnG), hm⟩)]
    simp only [abs_zero, hse, zero_div]
    exact wald_null N ha0 ha1

/-- Witness for C1 at a concrete valid bundle (events 100, case-cohort
50/1000, n 500, residual SD 1, prevalence 0.1, case-control 200/300,
GEE with 5000 observations in clusters of 4 with ICC 0.05, alpha 0.05). -/
theorem null_power_identity_witness :
    calculateCoxPower logisticModel 1 100 (1 / 20) none 0 = 1 / 20 ∧
    calculateCoxPower logisticModel 1 100 (1 / 20) (some (50, 1000)) 0 = 1 / 20 ∧
    calculateLinearPower logisticModel 0 500 1 (1 / 20) 0 = 1 / 20 ∧
    calculateLogisticPower logisticModel 1 500 (1 / 10) (1 / 20) none 0 = 1 / 20 ∧
    calculateLogisticPower logisticModel 1 500 (1 / 10) (1 / 20) (some (200, 300)) 0 = 1 / 20 ∧
    calculatePoissonPower logisticModel 1 500 (1 / 10) (1 / 20) 0 = 1 / 20 ∧
    calculateGEE_Power logisticModel 0 5000 4 (1 / 20) 1 (1 / 20) 0 = 1 / 20 :=
  null_power_identity logisticModel 100 50 1000 500 1 (1 / 10) 200 300 5000 4 (1 / 20)
    (1 / 20) 0
    (by norm_num) (by norm_num) (by norm_num) (by norm_num) (by norm_num) (by norm_num)
    (by norm_num) (by norm_num) (by norm_num) (by norm_num) (by norm_num) (by norm_num)
    (by norm_num) (by norm_num) (by norm_num)

-- ===========================================================================
-- C3: the case-cohort power path produces NaN, not the sentinel 0
-- ===========================================================================

/-- C3 (code bug): under JS arithmetic, `calculateCoxPower` on the
degenerate case-cohort input totalCohort = 0 (events 100, subcohort 50,
HR 2, alpha 0.05) evaluates to NaN — the unguarded `totalCohort` makes
the sampling fraction Infinity, the variance inflation factor
`1 + (1 - f)/f` becomes NaN, and NaN propagates through the square root,
the division, both CDF terms and the min/max clamp.  The result is not a
number in [0,1] and not the sentinel 0 the error-handling design
prescribes for invalid domains. -/
theorem coxPower_caseCohort_nan_cex :
    jsCoxPower logisticModel 2 100 (1 / 20) (some (50, 0)) 0 = JSNum.nan := by
  have hsf : JSNum.div (.fin 50) (.fin 0) = JSNum.posInf := by
    show (if (0:ℝ) = 0 then (if (50:ℝ) = 0 then JSNum.nan else if (0:ℝ) < 50 then JSNum.posInf
        else JSNum.negInf) else JSNum.fin (50 / 0)) = JSNum.posInf
    norm_num
  have hse : jsCoxCaseCohortSE 100 50 0 0 = JSNum.nan := by
    unfold jsCoxCaseCohortSE
    rw [if_neg (by norm_num)]
    simp only [hsf]
    rfl
  unfold jsCoxPower
  rw [if_neg (by norm_num)]
  simp only [hse]
  rfl

-- ===========================================================================
-- C4: an SE calculator can return a negative value
-- ===========================================================================

/-- C4 (code bug): `calculateLinearSE` does not guard `residualSD`, so at
sampleSize 10, residualSD -1 it returns -1/sqrt(8), a strictly negative
finite standard error — neither the Infinity sentinel nor a strictly
positive number. -/
theorem linearSE_negative_cex :
    calculateLinearSE 10 (-1) 0 = some (-(1 / Real.sqrt 8)) ∧ -(1 / Real.sqrt 8) < 0 := by
  constructor
  · unfold calculateLinearSE
    rw [if_neg (by norm_num)]
    norm_num [sanitizeR2, neg_div]
  · have h8 : 0 < Real.sqrt 8 := Real.sqrt_pos.mpr (by norm_num)
    have h : 0 < 1 / Real.sqrt 8 := by positivity
    linarith

-- ===========================================================================
-- C6: required events for Cox
-- ===========================================================================

/-- C6 (Cox required events): for hazardRatio > 1 and targetPower, alpha
in (0,1) the result is ceil(((z_{1-a/2} + z_{power}) / |log HR|)^2 /
(1 - R2)) with covariateR2 sanitized to 0 outside [0,1); for
hazardRatio ≤ 1 or targetPower/alpha outside (0,1) it is the Infinity
sentinel. -/
theorem coxRequiredEvents_spec (N : NormalModel) (hazardR targetPower alpha r2 : ℝ) :
    (1 < hazardR → 0 < targetPower → targetPower < 1 → 0 < alpha → alpha < 1 →
      calculateCoxRequiredEvents N hazardR targetPower alpha r2 =
        some ((⌈((N.quantile (1 - alpha / 2) + N.quantile targetPower) / |Real.log hazardR|) ^ 2
          / (1 - sanitizeR2 r2)⌉ : ℤ) : ℝ)) ∧
    ((hazardR ≤ 1 ∨ targetPower ≤ 0 ∨ 1 ≤ targetPower ∨ alpha ≤ 0 ∨ 1 ≤ alpha) →
      calculateCoxRequiredEvents N hazardR targetPower alpha r2 = none) := by
  constructor
  · intro h1 h2 h3 h4 h5
    unfold calculateCoxRequiredEvents
    rw [if_neg (by push_neg; exact ⟨h1, h2, h3, h4, h5⟩)]
    simp only [pow_two]
  · intro h
    unfold calculateCoxRequiredEvents
    rw [if_pos h]

/-- Witness for C6 at hazardRatio 2, targetPower 0.8, alpha 0.05. -/
theorem coxRequiredEvents_spec_witness :
    calculateCoxRequiredEvents logisticModel 2 (4 / 5) (1 / 20) 0 =
      some ((⌈((logisticModel.quantile (1 - (1 / 20) / 2) + logisticModel.quantile (4 / 5))
        / |Real.log 2|) ^ 2 / (1 - sanitizeR2 0)⌉ : ℤ) : ℝ) :=
  (coxRequiredEvents_spec logisticModel 2 (4 / 5) (1 / 20) 0).1
    (by norm_num) (by norm_num) (by norm_num) (by norm_num) (by norm_num)

-- ===========================================================================
-- C7: direction symmetry
-- ===========================================================================

/-- C7 (direction symmetry): for the ratio-type models (Cox, logistic,
Poisson) with effect > 0, power at `effect` equals power at `1/effect`
exactly, all other parameters fixed; for the beta-type models (linear,
GEE), power at `beta` equals power at `-beta`. -/
theorem power_direction_symmetry (N : NormalModel)
    (effect beta events sampleSize residualSD prevalence nG clusterSize icc alpha r2 : ℝ)
    (caseCohort caseControl : Option (ℝ × ℝ)) (he : 0 < effect) :
    calculateCoxPower N effect events alpha caseCohort r2
      = calculateCoxPower N (1 / effect) events alpha caseCohort r2 ∧
    calculateLogisticPower N effect sampleSize prevalence alpha caseControl r2
      = calculateLogisticPower N (1 / effect) sampleSize prevalence alpha caseControl r2 ∧
    calculatePoissonPower N effect sampleSize prevalence alpha r2
      = calculatePoissonPower N (1 / effect) sampleSize prevalence alpha r2 ∧
    calculateLinearPower N beta sampleSize residualSD alpha r2
      = calculateLinearPower N (-beta) sampleSize residualSD alpha r2 ∧
    calculateGEE_Power N beta nG clusterSize icc residualSD alpha r2
      = calculateGEE_Power N (-beta) nG clusterSize icc residualSD alpha r2 := by
  have h1 : ¬(effect ≤ 0) := not_le.mpr he
  have h2 : ¬(1 / effect ≤ 0) := not_le.mpr (by positivity)
  have habs : |Real.log (1 / effect)| = |Real.log effect| := by
    rw [one_div, Real.log_inv, abs_neg]
  refine ⟨?_, ?_, ?_, ?_, ?_⟩
  · unfold calculateCoxPower
    by_cases hg : events ≤ 0 ∨ alpha ≤ 0 ∨ 1 ≤ alpha
    · rw [if_pos (Or.inr hg), if_pos (Or.inr hg)]
    · rw [if_neg (not_or.mpr ⟨h1, hg⟩), if_neg (not_or.mpr ⟨h2, hg⟩)]
      simp only [habs]
  · unfold calculateLogisticPower
    by_cases hg : alpha ≤ 0 ∨ 1 ≤ alpha
    · rw [if_pos (Or.inr hg), if_pos (Or.inr hg)]
    · rw [if_neg (not_or.mpr ⟨h1, hg⟩), if_neg (not_or.mpr ⟨h2, hg⟩)]
      simp only [habs]
  · unfold calculatePoissonPower
    by_cases hg : sampleSize ≤ 0 ∨ prevalence ≤ 0 ∨ 1 ≤ prevalence ∨ alpha ≤ 0 ∨ 1 ≤ alpha
    · rw [if_pos (Or.inr hg), if_pos (Or.inr hg)]
    · rw [if_neg (not_or.mpr ⟨h1, hg⟩), if_neg (not_or.mpr ⟨h2, hg⟩)]
      simp only [habs]
  · unfold calculateLinearPower
    simp only [abs_neg]
  · unfold calculateGEE_Power
    simp only [abs_neg]

/-- Witness for C7 at effect 2, beta 0.3, a cohort bundle. -/
theorem power_direction_symmetry_witness :
    calculateCoxPower logisticModel 2 100 (1 / 20) none 0
      = calculateCoxPower logisticModel (1 / 2) 100 (1 / 20) none 0 ∧
    calculateLogisticPower logisticModel 2 500 (1 / 10) (1 / 20) none 0
      = calculateLogisticPower logisticModel (1 / 2) 500 (1 / 10) (1 / 20) none 0 ∧
    calculatePoissonPower logisticModel 2 500 (1 / 10) (1 / 20) 0
      = calculatePoissonPower logisticModel (1 / 2) 500 (1 / 10) (1 / 20) 0 ∧
    calculateLinearPower logisticModel (3 / 10) 500 1 (1 / 20) 0
      = calculateLinearPower logisticModel (-(3 / 10)) 500 1 (1 / 20) 0 ∧
    calculateGEE_Power logisticModel (3 / 10) 5000 4 (1 / 20) 1 (1 / 20) 0
      = calculateGEE_Power logisticModel (-(3 / 10)) 5000 4 (1 / 20) 1 (1 / 20) 0 :=
  power_direction_symmetry logisticModel 2 (3 / 10) 100 500 1 (1 / 10) 5000 4 (1 / 20) (1 / 20) 0
    none none (by norm_num)

-- ===========================================================================
-- C5: monotonicity in events / sample size
-- ===========================================================================

lemma calculateCoxPower_nonneg (N : NormalModel) (hazardR events alpha : ℝ)
    (caseCohort : Option (ℝ × ℝ)) (covariateR2 : ℝ) :
    0 ≤ calculateCoxPower N hazardR events alpha caseCohort covariateR2 := by
  unfold calculateCoxPower
  split
  · exact le_refl 0
  · exact clamp_nonneg _

lemma calculateLinearPower_nonneg (N : NormalModel) (beta sampleSize residualSD alpha covariateR2 : ℝ) :
    0 ≤ calculateLinearPower N beta sampleSize residualSD alpha covariateR2 := by
  unfold calculateLinearPower
  split
  · exact le_refl 0
  · exact clamp_nonneg _

lemma calculateLogisticPower_nonneg (N : NormalModel) (oddsR sampleSize prevalence alpha : ℝ)
    (caseControl : Option (ℝ × ℝ)) (covariateR2 : ℝ) :
    0 ≤ calculateLogisticPower N oddsR sampleSize prevalence alpha caseControl covariateR2 := by
  unfold calculateLogisticPower
  split
  · exact le_rfl
  · split
    · dsimp only
      split
      · exact le_rfl
      · exact clamp_nonneg _
    · dsimp only
      split
      · exact le_rfl
      · exact clamp_nonneg _

lemma calculatePoissonPower_nonneg (N : NormalModel) (relativeRisk sampleSize prevalence alpha covariateR2 : ℝ) :
    0 ≤ calculatePoissonPower N relativeRisk sampleSize prevalence alpha covariateR2 := by
  unfold calculatePoissonPower
  split
  · exact le_refl 0
  · exact clamp_nonneg _

lemma calculateGEE_Power_nonneg (N : NormalModel)
    (beta totalObservations clusterSize icc residualSD alpha covariateR2 : ℝ) :
    0 ≤ calculateGEE_Power N beta totalObservations clusterSize icc residualSD alpha covariateR2 := by
  unfold calculateGEE_Power
  split
  · exact le_refl 0
  · split
    · exact le_refl 0
    · exact clamp_nonneg _

/-- C5 (monotonicity in sample size/events): for each model's power
function, with effect size and alpha fixed at valid values and the other
design parameters fixed and valid, power is non-decreasing in the
events / sample-size parameter, for ALL n1 ≤ n2 (the invalid region
yields the sentinel 0, which every power value dominates).  This is the
invariant the required-N/events searches depend on. -/
theorem power_mono_in_sample_size (N : NormalModel)
    (hazardR oddsR relativeRisk beta residualSD prevalence subcohortSize totalCohort cases
      controls clusterSize icc alpha r2 n1 n2 : ℝ)
    (h12 : n1 ≤ n2)
    (hhr : 0 < hazardR) (hor : 0 < oddsR) (hrr : 0 < relativeRisk)
    (hsd : 0 < residualSD) (hp0 : 0 < prevalence) (hp1 : prevalence < 1)
    (hsub : 0 < subcohortSize) (htot : 0 < totalCohort)
    (_hc : 0 < cases) (_hk : 0 < controls)
    (hcs : 0 < clusterSize) (hicc0 : 0 ≤ icc) (hicc1 : icc ≤ 1)
    (ha0 : 0 < alpha) (ha1 : alpha < 1) :
    calculateCoxPower N hazardR n1 alpha none r2 ≤ calculateCoxPower N hazardR n2 alpha none r2 ∧
    calculateCoxPower N hazardR n1 alpha (some (subcohortSize, totalCohort)) r2
      ≤ calculateCoxPower N hazardR n2 alpha (some (subcohortSize, totalCohort)) r2 ∧
    calculateLinearPower N beta n1 residualSD alpha r2
      ≤ calculateLinearPower N beta n2 residualSD alpha r2 ∧
    calculateLogisticPower N oddsR n1 prevalence alpha none r2
      ≤ calculateLogisticPower N oddsR n2 prevalence alpha none r2 ∧
    calculateLogisticPower N oddsR n1 prevalence alpha (some (cases, controls)) r2
      ≤ calculateLogisticPower N oddsR n2 prevalence alpha (some (cases, controls)) r2 ∧
    calculatePoissonPower N relativeRisk n1 prevalence alpha r2
      ≤ calculatePoissonPower N relativeRisk n2 prevalence alpha r2 ∧
    calculateGEE_Power N beta n1 clusterSize icc residualSD alpha r2
      ≤ calculateGEE_Power N beta n2 clusterSize icc residualSD alpha r2 := by
  have hz : 0 ≤ N.quantile (1 - alpha / 2) :=
    N.quantile_nonneg (by linarith) (by linarith) (by linarith)
  have hK : 0 < 1 - sanitizeR2 r2 := one_sub_sanitizeR2_pos r2
  refine ⟨?_, ?_, ?_, ?_, ?_, ?_, ?_⟩
  -- Cox
  · by_cases hn1 : n1 ≤ 0
    · have hL : calculateCoxPower N hazardR n1 alpha none r2 = 0 := by
        unfold calculateCoxPower
        rw [if_pos (Or.inr (Or.inl hn1))]
      rw [hL]
      exact calculateCoxPower_nonneg N hazardR n2 alpha none r2
    · push_neg at hn1
      have hn2 : 0 < n2 := lt_of_lt_of_le hn1 h12
      unfold calculateCoxPower
      rw [if_neg (by push_neg; exact ⟨hhr, hn1, ha0, ha1⟩),
        if_neg (by push_neg; exact ⟨hhr, hn2, ha0, ha1⟩)]
      have hse1 : calculateCoxSE n1 r2 = some (1 / Real.sqrt (n1 * (1 - sanitizeR2 r2))) := by
        unfold calculateCoxSE
        exact if_neg (not_le.mpr hn1)
      have hse2 : calculateCoxSE n2 r2 = some (1 / Real.sqrt (n2 * (1 - sanitizeR2 r2))) := by
        unfold calculateCoxSE
        exact if_neg (not_le.mpr hn2)
      have hq1 : 0 < Real.sqrt (n1 * (1 - sanitizeR2 r2)) :=
        Real.sqrt_pos.mpr (mul_pos hn1 hK)
      have hq2 : 0 < Real.sqrt (n2 * (1 - sanitizeR2 r2)) :=
        Real.sqrt_pos.mpr (mul_pos hn2 hK)
      simp only [hse1, hse2, infDiv]
      refine wald_mono_se N hz (abs_nonneg _) (one_div_pos.mpr hq2) ?_
      exact one_div_le_one_div_of_le hq1
        (Real.sqrt_le_sqrt (mul_le_mul_of_nonneg_right h12 hK.le))
  -- Cox, case-cohort design (events is still the search variable;
  -- sqrt(vif) is a fixed positive multiplier since vif = 1 + (1-f)/f = 1/f
  -- for the fixed valid sampling fraction f = subcohortSize/totalCohort)
  · by_cases hn1 : n1 ≤ 0
    · have hL : calculateCoxPower N hazardR n1 alpha (some (subcohortSize, totalCohort)) r2 = 0 := by
        unfold calculateCoxPower
        rw [if_pos (Or.inr (Or.inl hn1))]
      rw [hL]
      exact calculateCoxPower_nonneg N hazardR n2 alpha (some (subcohortSize, totalCohort)) r2
    · push_neg at hn1
      have hn2 : 0 < n2 := lt_of_lt_of_le hn1 h12
      unfold calculateCoxPower
      rw [if_neg (by push_neg; exact ⟨hhr, hn1, ha0, ha1⟩),
        if_neg (by push_neg; exact ⟨hhr, hn2, ha0, ha1⟩)]
      have hse1 : calculateCoxCaseCohortSE n1 subcohortSize totalCohort r2
          = some (Real.sqrt (1 + (1 - subcohortSize / totalCohort) / (subcohortSize / totalCohort))
            / Real.sqrt (n1 * (1 - sanitizeR2 r2))) := by
        unfold calculateCoxCaseCohortSE
        rw [if_neg (by push_neg; exact ⟨hn1, hsub⟩)]
      have hse2 : calculateCoxCaseCohortSE n2 subcohortSize totalCohort r2
          = some (Real.sqrt (1 + (1 - subcohortSize / totalCohort) / (subcohortSize / totalCohort))
            / Real.sqrt (n2 * (1 - sanitizeR2 r2))) := by
        unfold calculateCoxCaseCohortSE
        rw [if_neg (by push_neg; exact ⟨hn2, hsub⟩)]
      have hf : 0 < subcohortSize / totalCohort := div_pos hsub htot
      have hvif : 0 < 1 + (1 - subcohortSize / totalCohort) / (subcohortSize / totalCohort) := by
        have h : (1 - subcohortSize / totalCohort) / (subcohortSize / totalCohort)
            = 1 / (subcohortSize / totalCohort) - 1 := by
          rw [sub_div, div_self hf.ne']
        have h3 : 0 < 1 / (subcohortSize / totalCohort) := one_div_pos.mpr hf
        rw [h]
        linarith
      have hq1 : 0 < Real.sqrt (n1 * (1 - sanitizeR2 r2)) :=
        Real.sqrt_pos.mpr (mul_pos hn1 hK)
      have hq2 : 0 < Real.sqrt (n2 * (1 - sanitizeR2 r2)) :=
        Real.sqrt_pos.mpr (mul_pos hn2 hK)
      simp only [hse1, hse2, infDiv]
      refine wald_mono_se N hz (abs_nonneg _)
        (div_pos (Real.sqrt_pos.mpr hvif) hq2) ?_
      exact div_le_div_of_nonneg_left (Real.sqrt_nonneg _) hq1
        (Real.sqrt_le_sqrt (mul_le_mul_of_nonneg_right h12 hK.le))
  -- Linear
  · by_cases hn1 : n1 ≤ 2
    · have hL : calculateLinearPower N beta n1 residualSD alpha r2 = 0 := by
        unfold calculateLinearPower
        rw [if_pos (Or.inl hn1)]
      rw [hL]
      exact calculateLinearPower_nonneg N beta n2 residualSD alpha r2
    · push_neg at hn1
      have hn2 : 2 < n2 := lt_of_lt_of_le hn1 h12
      unfold calculateLinearPower
      rw [if_neg (by push_neg; exact ⟨hn1, hsd, ha0, ha1⟩),
        if_neg (by push_neg; exact ⟨hn2, hsd, ha0, ha1⟩)]
      have hse1 : calculateLinearSE n1 residualSD r2
          = some (residualSD / Real.sqrt ((n1 - 2) * (1 - sanitizeR2 r2))) := by
        unfold calculateLinearSE
        exact if_neg (not_le.mpr hn1)
      have hse2 : calculateLinearSE n2 residualSD r2
          = some (residualSD / Real.sqrt ((n2 - 2) * (1 - sanitizeR2 r2))) := by
        unfold calculateLinearSE
        exact if_neg (not_le.mpr hn2)
      have hq1 : 0 < Real.sqrt ((n1 - 2) * (1 - sanitizeR2 r2)) :=
        Real.sqrt_pos.mpr (mul_pos (by linarith) hK)
      have hq2 : 0 < Real.sqrt ((n2 - 2) * (1 - sanitizeR2 r2)) :=
        Real.sqrt_pos.mpr (mul_pos (by linarith) hK)
      simp only [hse1, hse2, infDiv]
      refine wald_mono_se N hz (abs_nonneg _) (div_pos hsd hq2) ?_
      exact div_le_div_of_nonneg_left hsd.le hq1
        (Real.sqrt_le_sqrt (mul_le_mul_of_nonneg_right (by linarith) hK.le))
  -- Logistic
  · by_cases hn1 : n1 ≤ 0
    · have hL : calculateLogisticPower N oddsR n1 prevalence alpha none r2 = 0 := by
        unfold calculateLogisticPower
        rw [if_neg (by push_neg; exact ⟨hor, ha0, ha1⟩)]
        have hse1 : calculateLogisticSE n1 prevalence r2 = none := by
          unfold calculateLogisticSE
          exact if_pos (Or.inl hn1)
        simp only [hse1]
      rw [hL]
      exact calculateLogisticPower_nonneg N oddsR n2 prevalence alpha none r2
    · push_neg at hn1
      have hn2 : 0 < n2 := lt_of_lt_of_le hn1 h12
      unfold calculateLogisticPower
      have hguard : ¬(oddsR ≤ 0 ∨ alpha ≤ 0 ∨ 1 ≤ alpha) := by
        push_neg
        exact ⟨hor, ha0, ha1⟩
      rw [if_neg hguard, if_neg hguard]
      have hse1 : calculateLogisticSE n1 prevalence r2
          = some (1 / Real.sqrt (n1 * prevalence * (1 - prevalence) * (1 - sanitizeR2 r2))) := by
        unfold calculateLogisticSE
        exact if_neg (by push_neg; exact ⟨hn1, hp0, hp1⟩)
      have hse2 : calculateLogisticSE n2 prevalence r2
          = some (1 / Real.sqrt (n2 * prevalence * (1 - prevalence) * (1 - sanitizeR2 r2))) := by
        unfold calculateLogisticSE
        exact if_neg (by push_neg; exact ⟨hn2, hp0, hp1⟩)
      have hq1 : 0 < Real.sqrt (n1 * prevalence * (1 - prevalence) * (1 - sanitizeR2 r2)) :=
        Real.sqrt_pos.mpr (mul_pos (mul_pos (mul_pos hn1 hp0) (by linarith)) hK)
      have hq2 : 0 < Real.sqrt (n2 * prevalence * (1 - prevalence) * (1 - sanitizeR2 r2)) :=
        Real.sqrt_pos.mpr (mul_pos (mul_pos (mul_pos hn2 hp0) (by linarith)) hK)
      simp only [hse1, hse2]
      refine wald_mono_se N hz (abs_nonneg _) (one_div_pos.mpr hq2) ?_
      refine one_div_le_one_div_of_le hq1 (Real.sqrt_le_sqrt ?_)
      have h1p : (0:ℝ) ≤ 1 - prevalence := by linarith
      exact mul_le_mul_of_nonneg_right
        (mul_le_mul_of_nonneg_right (mul_le_mul_of_nonneg_right h12 hp0.le) h1p) hK.le
  -- Logistic, case-control design: the SE reads only cases/controls, so
  -- the power does not depend on sampleSize at all on this path and the
  -- two sides are definitionally equal
  · exact le_of_eq rfl
  -- Poisson
  · by_cases hn1 : n1 ≤ 0
    · have hL : calculatePoissonPower N relativeRisk n1 prevalence alpha r2 = 0 := by
        unfold calculatePoissonPower
        rw [if_pos (Or.inr (Or.inl hn1))]
      rw [hL]
      exact calculatePoissonPower_nonneg N relativeRisk n2 prevalence alpha r2
    · push_neg at hn1
      have hn2 : 0 < n2 := lt_of_lt_of_le hn1 h12
      unfold calculatePoissonPower
      rw [if_neg (by push_neg; exact ⟨hrr, hn1, hp0, hp1, ha0, ha1⟩),
        if_neg (by push_neg; exact ⟨hrr, hn2, hp0, hp1, ha0, ha1⟩)]
      have hse1 : calculatePoissonSE n1 prevalence r2
          = some (Real.sqrt (1 / (n1 * prevalence * (1 - sanitizeR2 r2)))) := by
        unfold calculatePoissonSE
        exact if_neg (by push_neg; exact ⟨hn1, hp0, hp1⟩)
      have hse2 : calculatePoissonSE n2 prevalence r2
          = some (Real.sqrt (1 / (n2 * prevalence * (1 - sanitizeR2 r2)))) := by
        unfold calculatePoissonSE
        exact if_neg (by push_neg; exact ⟨hn2, hp0, hp1⟩)
      have hd1 : (0:ℝ) < n1 * prevalence * (1 - sanitizeR2 r2) :=
        mul_pos (mul_pos hn1 hp0) hK
      have hd2 : (0:ℝ) < n2 * prevalence * (1 - sanitizeR2 r2) :=
        mul_pos (mul_pos hn2 hp0) hK
      simp only [hse1, hse2, infDiv]
      refine wald_mono_se N hz (abs_nonneg _) (Real.sqrt_pos.mpr (one_div_pos.mpr hd2)) ?_
      refine Real.sqrt_le_sqrt (one_div_le_one_div_of_le hd1 ?_)
      exact mul_le_mul_of_nonneg_right (mul_le_mul_of_nonneg_right h12 hp0.le) hK.le
  -- GEE
  · by_cases hn1 : n1 ≤ 2
    · have hL : calculateGEE_Power N beta n1 clusterSize icc residualSD alpha r2 = 0 := by
        unfold calculateGEE_Power
        rw [if_pos (Or.inl hn1)]
      rw [hL]
      exact calculateGEE_Power_nonneg N beta n2 clusterSize icc residualSD alpha r2
    · push_neg at hn1
      have hn2 : 2 < n2 := lt_of_lt_of_le hn1 h12
      unfold calculateGEE_Power
      rw [if_neg (by push_neg; exact ⟨hn1, hcs, hsd, ha0, ha1, hicc0, hicc1⟩),
        if_neg (by push_neg; exact ⟨hn2, hcs, hsd, ha0, ha1, hicc0, hicc1⟩)]
      have hse1 : calculateGEE_SE n1 clusterSize icc residualSD r2
          = some (residualSD * Real.sqrt (calculateDesignEffect clusterSize icc)
            / Real.sqrt ((n1 - 2) * (1 - sanitizeR2 r2))) := by
        unfold calculateGEE_SE
        rw [if_neg (by push_neg; exact ⟨hn1, hcs⟩)]
      have hse2 : calculateGEE_SE n2 clusterSize icc residualSD r2
          = some (residualSD * Real.sqrt (calculateDesignEffect clusterSize icc)
            / Real.sqrt ((n2 - 2) * (1 - sanitizeR2 r2))) := by
        unfold calculateGEE_SE
        rw [if_neg (by push_neg; exact ⟨hn2, hcs⟩)]
      have hde : 0 < Real.sqrt (calculateDesignEffect clusterSize icc) :=
        Real.sqrt_pos.mpr (calculateDesignEffect_pos clusterSize icc)
      have hq1 : 0 < Real.sqrt ((n1 - 2) * (1 - sanitizeR2 r2)) :=
        Real.sqrt_pos.mpr (mul_pos (by linarith) hK)
      have hq2 : 0 < Real.sqrt ((n2 - 2) * (1 - sanitizeR2 r2)) :=
        Real.sqrt_pos.mpr (mul_pos (by linarith) hK)
      simp only [hse1, hse2]
      refine wald_mono_se N hz (abs_nonneg _) (div_pos (mul_pos hsd hde) hq2) ?_
      exact div_le_div_of_nonneg_left (mul_nonneg hsd.le hde.le) hq1
        (Real.sqrt_le_sqrt (mul_le_mul_of_nonneg_right (by linarith) hK.le))

/-- Witness for C5 at n1 = 50 ≤ n2 = 100 with a concrete valid bundle
(case-cohort 50/1000 and case-control 200/300 variants included). -/
theorem power_mono_in_sample_size_witness :
    calculateCoxPower logisticModel (3 / 2) 50 (1 / 20) none 0
      ≤ calculateCoxPower logisticModel (3 / 2) 100 (1 / 20) none 0 ∧
    calculateCoxPower logisticModel (3 / 2) 50 (1 / 20) (some (50, 1000)) 0
      ≤ calculateCoxPower logisticModel (3 / 2) 100 (1 / 20) (some (50, 1000)) 0 ∧
    calculateLinearPower logisticModel (1 / 5) 50 1 (1 / 20) 0
      ≤ calculateLinearPower logisticModel (1 / 5) 100 1 (1 / 20) 0 ∧
    calculateLogisticPower logisticModel (3 / 2) 50 (1 / 10) (1 / 20) none 0
      ≤ calculateLogisticPower logisticModel (3 / 2) 100 (1 / 10) (1 / 20) none 0 ∧
    calculateLogisticPower logisticModel (3 / 2) 50 (1 / 10) (1 / 20) (some (200, 300)) 0
      ≤ calculateLogisticPower logisticModel (3 / 2) 100 (1 / 10) (1 / 20) (some (200, 300)) 0 ∧
    calculatePoissonPower logisticModel (3 / 2) 50 (1 / 10) (1 / 20) 0
      ≤ calculatePoissonPower logisticModel (3 / 2) 100 (1 / 10) (1 / 20) 0 ∧
    calculateGEE_Power logisticModel (1 / 5) 50 4 (1 / 20) 1 (1 / 20) 0
      ≤ calculateGEE_Power logisticModel (1 / 5) 100 4 (1 / 20) 1 (1 / 20) 0 :=
  power_mono_in_sample_size logisticModel (3 / 2) (3 / 2) (3 / 2) (1 / 5) 1 (1 / 10) 50 1000
    200 300 4 (1 / 20) (1 / 20) 0 50 100 (by norm_num) (by norm_num) (by norm_num)
    (by norm_num) (by norm_num) (by norm_num) (by norm_num) (by norm_num) (by norm_num)
    (by norm_num) (by norm_num) (by norm_num) (by norm_num) (by norm_num) (by norm_num)
    (by norm_num)

-- ===========================================================================
-- C8: stage-2 power uses the overlap-adjusted stage-2 sample size
-- ===========================================================================

/-- C8 (two-stage stage-2 power wiring): for every parameter bundle and
analysis type, the `stage2Power` field equals the unified dispatch
applied to the overlap-adjusted stage-2 sample size
(stage2SampleSize * (1 - sampleOverlap * 0.5) when sampleOverlap > 0,
stage2SampleSize otherwise) together with the stage-2 per-protein alpha
— never any stage-1 sample quantity. -/
theorem twoStage_stage2Power_spec (N : NormalModel) (effectSize : ℝ)
    (analysisType : AnalysisType) (params : TwoStageParams) (studyParams : StudySubset) :
    (calculateTwoStagePower N effectSize analysisType params studyParams).stage2Power =
      calculatePower N {
        analysisType := analysisType
        studyDesign := studyParams.studyDesign.getD .cohort
        effectSize := effectSize
        alpha := (calculateTwoStagePower N effectSize analysisType params studyParams).stage2PerProteinAlpha
        events := studyParams.events
        sampleSize := some (if 0 < params.sampleOverlap.getD 0
            then params.stage2SampleSize * (1 - params.sampleOverlap.getD 0 * (1 / 2))
            else params.stage2SampleSize)
        residualSD := some (jsOr studyParams.residualSD 1)
        prevalence := studyParams.prevalence
        cases := studyParams.cases
        controls := studyParams.controls
        subcohortSize := none
        totalCohort := none
        clusterSize := studyParams.clusterSize
        icc := studyParams.icc
        covariateR2 := none } := rfl

-- ===========================================================================
-- C9: expectedAdvancing is the claimed expression ROUNDED to one decimal
-- ===========================================================================

/-- C9 counterexample: at stage1Proteins 3, expectedHits 1, stage1FDR
0.1, a Cox bundle with no events (stage-1 power 0), the returned
`expectedAdvancing` is 0.1 (the rounded value) whereas the claimed
expression expectedHits*stage1Power + (stage1Proteins - expectedHits) *
(stage1FDR/stage1Proteins) is 1/15 ≈ 0.0667: the claim omits the
`Math.round(x*10)/10` applied to the stored field. -/
theorem twoStage_expectedAdvancing_cex :
    (calculateTwoStagePower logisticModel (3 / 2) .cox
        { stage1Proteins := 3, stage1SampleSize := 500, stage2SampleSize := 1000,
          stage1FDR := 1 / 10, stage2Alpha := 1 / 20,
          expectedHits := some 1, sampleOverlap := none }
        { studyDesign := none, events := none, residualSD := none, prevalence := none,
          cases := none, controls := none, clusterSize := none, icc := none }).expectedAdvancing
      ≠ 1 * (calculateTwoStagePower logisticModel (3 / 2) .cox
        { stage1Proteins := 3, stage1SampleSize := 500, stage2SampleSize := 1000,
          stage1FDR := 1 / 10, stage2Alpha := 1 / 20,
          expectedHits := some 1, sampleOverlap := none }
        { studyDesign := none, events := none, residualSD := none, prevalence := none,
          cases := none, controls := none, clusterSize := none, icc := none }).stage1Power
        + (3 - 1) * ((1 / 10) / 3) := by
  have hP : calculatePower logisticModel {
      analysisType := .cox
      studyDesign := StudyDesign.cohort
      effectSize := 3 / 2
      alpha := calculateStage1Alpha (1 / 10) 3
      events := none
      sampleSize := some 500
      residualSD := some (jsOr none 1)
      prevalence := none
      cases := none
      controls := none
      subcohortSize := none
      totalCohort := none
      clusterSize := none
      icc := none
      covariateR2 := none } = 0 := by
    unfold calculatePower
    simp only [truthy, Option.getD, jsOr]
    norm_num [calculateCoxPower]
  have hAdv : (calculateTwoStagePower logisticModel (3 / 2) .cox
        { stage1Proteins := 3, stage1SampleSize := 500, stage2SampleSize := 1000,
          stage1FDR := 1 / 10, stage2Alpha := 1 / 20,
          expectedHits := some 1, sampleOverlap := none }
        { studyDesign := none, events := none, residualSD := none, prevalence := none,
          cases := none, controls := none, clusterSize := none, icc := none }).expectedAdvancing
      = jsRound ((1 * calculatePower logisticModel {
          analysisType := .cox
          studyDesign := StudyDesign.cohort
          effectSize := 3 / 2
          alpha := calculateStage1Alpha (1 / 10) 3
          events := none
          sampleSize := some 500
          residualSD := some (jsOr none 1)
          prevalence := none
          cases := none
          controls := none
          subcohortSize := none
          totalCohort := none
          clusterSize := none
          icc := none
          covariateR2 := none }
        + (3 - 1) * calculateStage1Alpha (1 / 10) 3) * 10) / 10 := rfl
  have hPow : (calculateTwoStagePower logisticModel (3 / 2) .cox
        { stage1Proteins := 3, stage1SampleSize := 500, stage2SampleSize := 1000,
          stage1FDR := 1 / 10, stage2Alpha := 1 / 20,
          expectedHits := some 1, sampleOverlap := none }
        { studyDesign := none, events := none, residualSD := none, prevalence := none,
          cases := none, controls := none, clusterSize := none, icc := none }).stage1Power
      = calculatePower logisticModel {
          analysisType := .cox
          studyDesign := StudyDesign.cohort
          effectSize := 3 / 2
          alpha := calculateStage1Alpha (1 / 10) 3
          events := none
          sampleSize := some 500
          residualSD := some (jsOr none 1)
          prevalence := none
          cases := none
          controls := none
          subcohortSize := none
          totalCohort := none
          clusterSize := none
          icc := none
          covariateR2 := none } := rfl
  rw [hAdv, hPow, hP]
  have halpha : calculateStage1Alpha (1 / 10) 3 = (1 / 10) / 3 := by
    unfold calculateStage1Alpha calculateEffectiveAlpha
    norm_num
  rw [halpha]
  have hfloor : jsRound ((1 * 0 + (3 - 1) * ((1 / 10) / 3 : ℝ)) * 10) = 1 := by
    unfold jsRound
    norm_num
  rw [hfloor]
  norm_num

/-- C9 amended: for every bundle with stage1Proteins > 0, the
`expectedAdvancing` field equals Math.round(10*x)/10 where x =
expectedHits*stage1Power + (stage1Proteins - expectedHits) *
(stage1FDR/stage1Proteins) — the claimed expression rounded to one
decimal place. -/
theorem twoStage_expectedAdvancing_amended (N : NormalModel) (effectSize : ℝ)
    (analysisType : AnalysisType) (params : TwoStageParams) (studyParams : StudySubset)
    (hP : 0 < params.stage1Proteins) :
    (calculateTwoStagePower N effectSize analysisType params studyParams).expectedAdvancing
      = jsRound ((params.expectedHits.getD 10
          * (calculateTwoStagePower N effectSize analysisType params studyParams).stage1Power
        + (params.stage1Proteins - params.expectedHits.getD 10)
          * (params.stage1FDR / params.stage1Proteins)) * 10) / 10 := by
  have halpha : calculateStage1Alpha params.stage1FDR params.stage1Proteins
      = params.stage1FDR / params.stage1Proteins := by
    unfold calculateStage1Alpha calculateEffectiveAlpha
    exact if_neg (not_le.mpr hP)
  have hform : (calculateTwoStagePower N effectSize analysisType params studyParams).expectedAdvancing
      = jsRound ((params.expectedHits.getD 10
          * (calculateTwoStagePower N effectSize analysisType params studyParams).stage1Power
        + (params.stage1Proteins - params.expectedHits.getD 10)
          * calculateStage1Alpha params.stage1FDR params.stage1Proteins) * 10) / 10 := rfl
  rw [hform, halpha]

/-- Witness for the amended C9 at the counterexample's bundle. -/
theorem twoStage_expectedAdvancing_amended_witness :
    (calculateTwoStagePower logisticModel (3 / 2) .cox
        { stage1Proteins := 3, stage1SampleSize := 500, stage2SampleSize := 1000,
          stage1FDR := 1 / 10, stage2Alpha := 1 / 20,
          expectedHits := some 1, sampleOverlap := none }
        { studyDesign := none, events := none, residualSD := none, prevalence := none,
          cases := none, controls := none, clusterSize := none, icc := none }).expectedAdvancing
      = jsRound ((1 * (calculateTwoStagePower logisticModel (3 / 2) .cox
        { stage1Proteins := 3, stage1SampleSize := 500, stage2SampleSize := 1000,
          stage1FDR := 1 / 10, stage2Alpha := 1 / 20,
          expectedHits := some 1, sampleOverlap := none }
        { studyDesign := none, events := none, residualSD := none, prevalence := none,
          cases := none, controls := none, clusterSize := none, icc := none }).stage1Power
        + (3 - 1) * ((1 / 10) / 3)) * 10) / 10 :=
  twoStage_expectedAdvancing_amended logisticModel (3 / 2) .cox
    { stage1Proteins := 3, stage1SampleSize := 500, stage2SampleSize := 1000,
      stage1FDR := 1 / 10, stage2Alpha := 1 / 20,
      expectedHits := some 1, sampleOverlap := none }
    { studyDesign := none, events := none, residualSD := none, prevalence := none,
      cases := none, controls := none, clusterSize := none, icc := none }
    (by norm_num)

-- ===========================================================================
-- C10: costEfficiency divide-by-zero guard
-- ===========================================================================

/-- C10 (cost-efficiency guard): whenever the internally computed
single-stage comparison power is 0, the returned `costEfficiency` is
exactly 1 (never Infinity or NaN: the guarded branch never divides);
otherwise it is jointPower divided by that single-stage power, rounded
to two decimals. -/
theorem twoStage_costEfficiency_guard (N : NormalModel) (effectSize : ℝ)
    (analysisType : AnalysisType) (params : TwoStageParams) (studyParams : StudySubset) :
    (singleStageComparisonPower N effectSize analysisType params studyParams = 0 →
      (calculateTwoStagePower N effectSize analysisType params studyParams).costEfficiency = 1) ∧
    (0 < singleStageComparisonPower N effectSize analysisType params studyParams →
      (calculateTwoStagePower N effectSize analysisType params studyParams).costEfficiency
        = jsRound ((calculateTwoStagePower N effectSize analysisType params studyParams).jointPower
            / singleStageComparisonPower N effectSize analysisType params studyParams * 100) / 100) := by
  have hform : (calculateTwoStagePower N effectSize analysisType params studyParams).costEfficiency
      = jsRound ((if 0 < singleStageComparisonPower N effectSize analysisType params studyParams
          then (calculateTwoStagePower N effectSize analysisType params studyParams).jointPower
            / singleStageComparisonPower N effectSize analysisType params studyParams
          else 1) * 100) / 100 := rfl
  constructor
  · intro h0
    rw [hform, if_neg (by rw [h0]; exact lt_irrefl 0)]
    unfold jsRound
    norm_num
  · intro hpos
    rw [hform, if_pos hpos]

/-- Witness for C10: a degenerate Cox bundle with no events makes every
power 0, in particular the single-stage comparison power, and the
returned costEfficiency is exactly 1. -/
theorem twoStage_costEfficiency_guard_witness :
    (calculateTwoStagePower logisticModel (3 / 2) .cox
        { stage1Proteins := 2000, stage1SampleSize := 500, stage2SampleSize := 1000,
          stage1FDR := 1 / 10, stage2Alpha := 1 / 20,
          expectedHits := none, sampleOverlap := none }
        { studyDesign := none, events := none, residualSD := none, prevalence := none,
          cases := none, controls := none, clusterSize := none, icc := none }).costEfficiency = 1 :=
  (twoStage_costEfficiency_guard logisticModel (3 / 2) .cox
    { stage1Proteins := 2000, stage1SampleSize := 500, stage2SampleSize := 1000,
      stage1FDR := 1 / 10, stage2Alpha := 1 / 20,
      expectedHits := none, sampleOverlap := none }
    { studyDesign := none, events := none, residualSD := none, prevalence := none,
      cases := none, controls := none, clusterSize := none, icc := none }).1 (by
    unfold singleStageComparisonPower calculatePower
    simp only [truthy, Option.getD, jsOr]
    norm_num [calculateCoxPower])

end
